import Mathlib

/-!
Verification of the Membership Billing & Lifecycle Engine of a gym
administration portal.  The repository ships the React frontend; the
billing rules that live in the frontend (enrollment pricing, urgency
badges, status badges, plan-editor updates, date-input bounds) are
embedded here directly from the source files.  The HTTP backend
(payment recording, expiry queries, start/end-date recompute,
admission-fee application) is not part of the shipped sources; those
operations are modelled from the specification, as marked on each
definition.

Dates are modelled as integers (days since an arbitrary epoch) except
where the source manipulates calendar fields, where a year/month/day
record is used.
-/

namespace Gym

/-- From `frontend/src/components/forms/MemberForm.js`,
`calculateEnrollmentAmount`: amount table keyed by membership type,
first-time vs subsequent pricing; unknown or empty type yields 0. -/
def calculateEnrollmentAmount (membershipType : String) (isExistingMember : Bool) : Nat :=
  if membershipType = "monthly" then
    (if isExistingMember then 1000 else 2500)
  else if membershipType = "quarterly" then
    (if isExistingMember then 3000 else 3500)
  else if membershipType = "six_monthly" then
    (if isExistingMember then 5500 else 6000)
  else 0

/-- From `frontend/src/App.js`, `getUrgencyColor`: CSS class chosen from
`days_until_expiry`. -/
def getUrgencyColor (days : Int) : String :=
  if days ≤ 1 then "bg-red-100 text-red-800 border-red-200"
  else if days ≤ 3 then "bg-orange-100 text-orange-800 border-orange-200"
  else if days ≤ 7 then "bg-yellow-100 text-yellow-800 border-yellow-200"
  else "bg-green-100 text-green-800 border-green-200"

/-- From `frontend/src/App.js`, `getUrgencyText`: badge label chosen from
`days_until_expiry`. -/
def getUrgencyText (days : Int) : String :=
  if days ≤ 0 then "EXPIRED"
  else if days = 1 then "TOMORROW"
  else if days ≤ 3 then "URGENT"
  else if days ≤ 7 then "SOON"
  else "UPCOMING"

/-- The fields of a member record read by `getStatusBadge` in
`frontend/src/components/MemberManagement.js`.  `membership_end` is in
days; the source compares `Date` values, here integers. -/
structure BadgeInput where
  member_status : String
  current_payment_status : String
  membership_end : Int
deriving DecidableEq

/-- The payment/expiry tail of `getStatusBadge` (everything after the
three member-status checks), split out so the precedence theorem can
state what the badge reduces to for an `active`/unset member.  The
source computes `isExpired = membership_end < now` and
`isExpiringSoon = membership_end < now + 7 days`. -/
def paymentExpiryBadge (pay : String) (membershipEnd now : Int) : String :=
  if pay = "paid" ∧ ¬ membershipEnd < now then "Active"
  else if pay = "pending" then "Pending"
  else if membershipEnd < now then "Expired"
  else if membershipEnd < now + 7 then "Expiring Soon"
  else "Unknown"

/-- From `frontend/src/components/MemberManagement.js`, `getStatusBadge`:
member status is checked first (suspended/frozen/inactive), then payment
status and date-based expiry. -/
def getStatusBadge (m : BadgeInput) (now : Int) : String :=
  if m.member_status = "suspended" then "Suspended"
  else if m.member_status = "frozen" then "Frozen"
  else if m.member_status = "inactive" then "Inactive"
  else if m.current_payment_status = "paid" ∧ ¬ m.membership_end < now then "Active"
  else if m.current_payment_status = "pending" then "Pending"
  else if m.membership_end < now then "Expired"
  else if m.membership_end < now + 7 then "Expiring Soon"
  else "Unknown"

/-- A calendar date as entered in the HTML date inputs (YYYY-MM-DD). -/
structure CalDate where
  year : Nat
  month : Nat
  day : Nat
deriving DecidableEq

/-- Chronological order of calendar dates; HTML date inputs compare the
YYYY-MM-DD strings, which for in-range fields is this lexicographic
order. -/
def dateLeb (a b : CalDate) : Bool :=
  if a.year ≠ b.year then decide (a.year < b.year)
  else if a.month ≠ b.month then decide (a.month < b.month)
  else decide (a.day ≤ b.day)

/-- From `frontend/src/components/MemberStartDateManager.js`,
`getTodayDate`: today's date, used as the `max` attribute of the
start-date input. -/
def getTodayDate (today : CalDate) : CalDate := today

/-- From `frontend/src/components/MemberStartDateManager.js`,
`getMinDate`: the date two years before today
(`setFullYear(getFullYear() - 2)`), used as the `min` attribute. -/
def getMinDate (today : CalDate) : CalDate :=
  { today with year := today.year - 2 }

/-- A value is accepted by the start-date input iff it satisfies both
the `min={getMinDate()}` and `max={getTodayDate()}` attributes. -/
def startDateInputOk (today d : CalDate) : Bool :=
  dateLeb (getMinDate today) d && dateLeb d (getTodayDate today)

/-- A value is accepted by the `join_date` input of
`frontend/src/components/forms/MemberForm.js` iff it satisfies the
`max` attribute (today); the input has no `min`. -/
def joinDateInputOk (today d : CalDate) : Bool :=
  dateLeb d (getTodayDate today)

/-- From `frontend/src/components/SettingsManagement.js`: a membership
plan as edited in the settings form. -/
structure SettingsPlan where
  name : String
  price : Int
  duration_days : Int
deriving DecidableEq

/-- JavaScript `x || 0` applied to a parse result: `parseFloat`/`parseInt`
yielding `NaN` (here `none`) gives 0; any parsed number (0 included, on
which `|| 0` is the identity) is kept as is. -/
def jsNumOr0 (v : Option Int) : Int :=
  match v with
  | some x => x
  | none => 0

/-- From `frontend/src/components/SettingsManagement.js`,
`updateMembershipPlan` with `field === 'price'`: stores
`parseFloat(value) || 0` into the plan, no validation. -/
def updatePlanPrice (p : SettingsPlan) (value : Option Int) : SettingsPlan :=
  { p with price := jsNumOr0 value }

/-- From `frontend/src/components/SettingsManagement.js`, the
duration input's `onChange`: stores `parseInt(value) || 0` into the
plan, no validation. -/
def updatePlanDuration (p : SettingsPlan) (value : Option Int) : SettingsPlan :=
  { p with duration_days := jsNumOr0 value }

/-- From `frontend/src/components/SettingsManagement.js`,
`handleSaveSettings`: sends the edited plans to `PUT /settings`
unchanged — no validation pass between the form state and the save
request. -/
def handleSaveSettings (plans : List (String × SettingsPlan)) : List (String × SettingsPlan) :=
  plans

/-- Modelled from the spec: the backend `RenewalExtensionEngine`'s
amount-to-duration table (the FastAPI server behind
`POST /api/payments` is not among the shipped sources).  Payment
amount 1000 extends by 30 days, 3000 by 90, 5500 by 180; any other
amount maps to no extension rule. -/
def extensionDays (amount : Nat) : Option Nat :=
  if amount = 1000 then some 30
  else if amount = 3000 then some 90
  else if amount = 5500 then some 180
  else none

/-- The membership window of a member account as the backend sees it:
the current `membership_end`, in days. -/
structure MemberAccount where
  membership_end : Int
deriving DecidableEq

/-- Modelled from the spec: the backend `recordPayment` (not among the
shipped sources).  The extension anchors at the member's stored
`membership_end` — never at the payment date — whether the membership
is still active or already expired; the current date is taken as a
parameter and plays no part in the new end date.  Amounts outside the
table yield no result. -/
def recordPayment (m : MemberAccount) (amount : Nat) (today : Int) : Option MemberAccount :=
  match extensionDays amount with
  | some d => some ⟨m.membership_end + d⟩
  | none => none

/-- The three recognized membership plans. -/
inductive PlanKey where
  | monthly
  | quarterly
  | six_monthly
deriving DecidableEq

/-- Modelled from the spec: the backend admission-fee rule (member
create/update handlers are not among the shipped sources; the repo's
test protocol records the behaviour).  The fee applies iff the
resolved plan is monthly and the member is newly enrolling
(`prior = none`) or switching into monthly from a non-monthly plan;
continuing monthly, or any non-monthly resolved plan, has no fee. -/
def admissionFeeApplies (resolved : PlanKey) (prior : Option PlanKey) : Bool :=
  (resolved == PlanKey.monthly) && (prior != some PlanKey.monthly)

/-- Modelled from the spec: the member's `total_amount_due` is the
enrollment amount plus the admission-fee line item when the fee
applies (catalog default 2000). -/
def totalAmountDue (enrollmentAmount admissionFee : Nat)
    (resolved : PlanKey) (prior : Option PlanKey) : Nat :=
  enrollmentAmount + (if admissionFeeApplies resolved prior then admissionFee else 0)

/-- A member as seen by the expiry-window query: an id and the
`membership_end` day. -/
structure ExpiryMember where
  id : Nat
  membership_end : Int
deriving DecidableEq

/-- Modelled from the spec: the backend `findExpiringWithin`
(`GET /api/reminders/expiring-members?days=N`, not among the shipped
sources).  Returns the members whose `membership_end` falls within
`[asOf, asOf + days]`, inclusive of already-expired members — i.e.
everyone due or overdue by `asOf + days`. -/
def findExpiringWithin (days : Nat) (asOf : Int) (members : List ExpiryMember) : List ExpiryMember :=
  members.filter (fun m => m.membership_end ≤ asOf + days)

/-- A payment ledger entry; the date-correction operations must leave
these untouched. -/
structure PaymentLedgerEntry where
  amount : Nat
  payment_date : Int
deriving DecidableEq

/-- A member record as seen by the date-correction endpoints:
start and end of the membership window, the active plan's duration,
and the payment history. -/
structure DatedMember where
  join_date : Int
  membership_end : Int
  duration_days : Nat
  payments : List PaymentLedgerEntry

/-- Modelled from the spec: `PUT /api/members/:id/start-date` (backend
not among the shipped sources).  A new start date triggers a full
recompute of `membership_end` from the plan duration anchored at the
new start — not an addition to the old end date — and leaves the
payment history untouched. -/
def setStartDate (m : DatedMember) (newStart : Int) : DatedMember :=
  { m with join_date := newStart, membership_end := newStart + m.duration_days }

/-- Modelled from the spec: `PUT /api/members/:id/end-date` (backend
not among the shipped sources).  A direct override of
`membership_end` with no recompute; payment history untouched. -/
def setEndDate (m : DatedMember) (newEnd : Int) : DatedMember :=
  { m with membership_end := newEnd }

/-- C1: a plan-matching renewal payment extends `membership_end` from
the member's previous expiry date, never from the payment date —
1000 adds exactly 30 days, 3000 exactly 90, 5500 exactly 180, each to
the pre-payment `membership_end`; a still-active member at `T + 20`
paying 1000 ends at `T + 50`; and the result is the same whatever
"today" is, so the previous-expiry anchor is used even for an
already-expired member. -/
theorem recordPayment_anchors_at_previous_end
    (m : MemberAccount) (T today today' : Int) :
    recordPayment m 1000 today = some ⟨m.membership_end + 30⟩ ∧
    recordPayment m 3000 today = some ⟨m.membership_end + 90⟩ ∧
    recordPayment m 5500 today = some ⟨m.membership_end + 180⟩ ∧
    recordPayment ⟨T + 20⟩ 1000 today = some ⟨T + 50⟩ ∧
    recordPayment m 1000 today = recordPayment m 1000 today' := by
  refine ⟨rfl, rfl, rfl, ?_, rfl⟩
  simp only [recordPayment, extensionDays]
  norm_num
  ring

/-- C2: for each recognized plan key, the enrollment-amount computation
returns the first-time price (monthly 2500, quarterly 3500,
six_monthly 6000) for a first-time enrollment and the
subsequent/renewal price (monthly 1000, quarterly 3000,
six_monthly 5500) for an existing member. -/
theorem calculateEnrollmentAmount_price_table :
    calculateEnrollmentAmount "monthly" false = 2500 ∧
    calculateEnrollmentAmount "monthly" true = 1000 ∧
    calculateEnrollmentAmount "quarterly" false = 3500 ∧
    calculateEnrollmentAmount "quarterly" true = 3000 ∧
    calculateEnrollmentAmount "six_monthly" false = 6000 ∧
    calculateEnrollmentAmount "six_monthly" true = 5500 := by
  refine ⟨rfl, rfl, ?_, ?_, ?_, ?_⟩ <;> decide

/-- C3: the admission-fee line item is part of `total_amount_due` iff
the resolved plan is monthly and the member is newly enrolling or
switching into monthly from a non-monthly plan; it is never applied
for quarterly or six_monthly whatever the history, and switching away
from monthly removes it. -/
theorem admissionFee_monthly_only
    (e f : Nat) (p : Option PlanKey) :
    (∀ r, admissionFeeApplies r p = true ↔ (r = PlanKey.monthly ∧ p ≠ some PlanKey.monthly)) ∧
    totalAmountDue e f PlanKey.quarterly p = e ∧
    totalAmountDue e f PlanKey.six_monthly p = e ∧
    totalAmountDue e f PlanKey.monthly none = e + f ∧
    totalAmountDue e f PlanKey.monthly (some PlanKey.quarterly) = e + f ∧
    totalAmountDue e f PlanKey.monthly (some PlanKey.six_monthly) = e + f ∧
    totalAmountDue e f PlanKey.monthly (some PlanKey.monthly) = e := by
  refine ⟨?_, ?_, ?_, rfl, rfl, rfl, rfl⟩
  · intro r
    cases r <;> rcases p with _ | k <;> simp [admissionFeeApplies]
  · rcases p with _ | k
    · rfl
    · cases k <;> rfl
  · rcases p with _ | k
    · rfl
    · cases k <;> rfl

/-- C4 counterexample: for an unrecognized membership type the
enrollment-amount computation does not fail — it silently returns 0,
both for a new and for an existing member, and likewise for an empty
type. -/
theorem calculateEnrollmentAmount_invalid_yields_zero :
    calculateEnrollmentAmount "yearly" false = 0 ∧
    calculateEnrollmentAmount "yearly" true = 0 ∧
    calculateEnrollmentAmount "" false = 0 := by
  refine ⟨?_, ?_, ?_⟩ <;> decide

/-- C4 amended: for every membership type outside the three recognized
keys, the enrollment-amount computation silently returns 0 for both
enrollment situations; no `InvalidPlan` failure path exists in the
code. -/
theorem calculateEnrollmentAmount_invalid_fallback
    (t : String) (b : Bool)
    (h1 : t ≠ "monthly") (h2 : t ≠ "quarterly") (h3 : t ≠ "six_monthly") :
    calculateEnrollmentAmount t b = 0 := by
  simp [calculateEnrollmentAmount, h1, h2, h3]

/-- Witness for the amended C4, at the concrete unrecognized key
"yearly". -/
theorem calculateEnrollmentAmount_invalid_fallback_witness :
    ("yearly" ≠ "monthly" ∧ "yearly" ≠ "quarterly" ∧ "yearly" ≠ "six_monthly") ∧
    calculateEnrollmentAmount "yearly" true = 0 :=
  ⟨by decide,
   calculateEnrollmentAmount_invalid_fallback "yearly" true
     (by decide) (by decide) (by decide)⟩

/-- C5: the expiry-window query returns exactly the members whose
`membership_end` is at most `asOf + days`, so with `days = 0` a member
ending exactly at `asOf` and an already-expired member ending at
`asOf - 1` are both included while one ending at `asOf + 1` is
excluded, and the latter is included once `days = 1`. -/
theorem findExpiringWithin_window
    (days : Nat) (asOf : Int) (ms : List ExpiryMember) (m : ExpiryMember) :
    (m ∈ findExpiringWithin days asOf ms ↔ m ∈ ms ∧ m.membership_end ≤ asOf + days) ∧
    (⟨1, asOf⟩ ∈ findExpiringWithin 0 asOf [⟨1, asOf⟩, ⟨2, asOf - 1⟩, ⟨3, asOf + 1⟩]) ∧
    (⟨2, asOf - 1⟩ ∈ findExpiringWithin 0 asOf [⟨1, asOf⟩, ⟨2, asOf - 1⟩, ⟨3, asOf + 1⟩]) ∧
    (⟨3, asOf + 1⟩ ∉ findExpiringWithin 0 asOf [⟨1, asOf⟩, ⟨2, asOf - 1⟩, ⟨3, asOf + 1⟩]) ∧
    (⟨3, asOf + 1⟩ ∈ findExpiringWithin 1 asOf [⟨1, asOf⟩, ⟨2, asOf - 1⟩, ⟨3, asOf + 1⟩]) := by
  constructor
  · simp [findExpiringWithin, List.mem_filter]
  refine ⟨?_, ?_, ?_, ?_⟩ <;>
    simp [findExpiringWithin, List.mem_filter]

/-- C6 counterexample: at `days_until_expiry = 0` the badge label is
already "EXPIRED" although 0 is not negative — the claim reserves the
already-expired classification for `d < 0` and classes `d = 0` as
critical, but the code's expired boundary is `d <= 0`. -/
theorem getUrgencyText_expired_at_zero :
    getUrgencyText 0 = "EXPIRED" ∧ ¬ ((0 : Int) < 0) := by
  refine ⟨?_, by omega⟩
  rfl

/-- C6 amended: the urgency badge is a pure function of
`days_until_expiry` with already-expired when `d <= 0` (not `d < 0`),
the critical label ("TOMORROW", styled with the critical red class)
exactly at `d = 1`, urgent for `1 < d <= 3`, soon for `3 < d <= 7`,
upcoming for `d > 7`; the colour classes follow the claim's thresholds
exactly (critical red iff `d <= 1`, urgent orange iff `1 < d <= 3`,
soon yellow iff `3 < d <= 7`, upcoming green iff `d > 7`). -/
theorem urgency_classification (d : Int) :
    (getUrgencyText d = "EXPIRED" ↔ d ≤ 0) ∧
    (getUrgencyText d = "TOMORROW" ↔ d = 1) ∧
    (getUrgencyText d = "URGENT" ↔ (1 < d ∧ d ≤ 3)) ∧
    (getUrgencyText d = "SOON" ↔ (3 < d ∧ d ≤ 7)) ∧
    (getUrgencyText d = "UPCOMING" ↔ 7 < d) ∧
    (getUrgencyColor d = "bg-red-100 text-red-800 border-red-200" ↔ d ≤ 1) ∧
    (getUrgencyColor d = "bg-orange-100 text-orange-800 border-orange-200" ↔ (1 < d ∧ d ≤ 3)) ∧
    (getUrgencyColor d = "bg-yellow-100 text-yellow-800 border-yellow-200" ↔ (3 < d ∧ d ≤ 7)) ∧
    (getUrgencyColor d = "bg-green-100 text-green-800 border-green-200" ↔ 7 < d) := by
  unfold getUrgencyText getUrgencyColor
  split_ifs <;> simp_all <;> omega

/-- C7 counterexample: the plan editor accepts a negative price patch —
no failure is reported, the stored plan changes, and the save step
forwards the negative-priced plan unchanged. -/
theorem updatePlanPrice_accepts_negative :
    updatePlanPrice ⟨"Monthly Plan", 1000, 30⟩ (some (-500)) = ⟨"Monthly Plan", -500, 30⟩ ∧
    updatePlanPrice ⟨"Monthly Plan", 1000, 30⟩ (some (-500)) ≠ ⟨"Monthly Plan", 1000, 30⟩ ∧
    handleSaveSettings [("monthly", ⟨"Monthly Plan", -500, 30⟩)] =
      [("monthly", ⟨"Monthly Plan", -500, 30⟩)] := by
  refine ⟨rfl, ?_, rfl⟩
  decide

/-- C7 amended: the pricing editor performs no validation — a parsed
price or duration is stored exactly as given (zero and negative values
included), a malformed value is coerced to 0, other fields are left
alone, and saving forwards the edited plans without any check; there
is no `InvalidInput` failure path. -/
theorem updateMembershipPlan_no_validation
    (p : SettingsPlan) (v : Int) (plans : List (String × SettingsPlan)) :
    (updatePlanPrice p (some v)).price = v ∧
    (updatePlanPrice p none).price = 0 ∧
    (updatePlanPrice p (some v)).name = p.name ∧
    (updatePlanPrice p (some v)).duration_days = p.duration_days ∧
    (updatePlanDuration p (some v)).duration_days = v ∧
    (updatePlanDuration p none).duration_days = 0 ∧
    handleSaveSettings plans = plans := by
  exact ⟨rfl, rfl, rfl, rfl, rfl, rfl, rfl⟩

/-- C8: a new start date triggers a full recompute of `membership_end`
as exactly `newStart + duration_days`, while a new end date is stored
directly with no recompute; neither operation touches the payment
history. -/
theorem setStartDate_recomputes_setEndDate_overrides
    (m : DatedMember) (newStart newEnd : Int) :
    (setStartDate m newStart).membership_end = newStart + m.duration_days ∧
    (setStartDate m newStart).join_date = newStart ∧
    (setStartDate m newStart).payments = m.payments ∧
    (setEndDate m newEnd).membership_end = newEnd ∧
    (setEndDate m newEnd).join_date = m.join_date ∧
    (setEndDate m newEnd).payments = m.payments := by
  exact ⟨rfl, rfl, rfl, rfl, rfl, rfl⟩

/-- C9: the admin-controlled member status takes strict precedence in
the status badge — for a suspended, frozen or inactive member the
badge is fixed by that status and ignores the payment status, the end
date and the current time; only for an active (or unset) status is the
badge derived from the payment status and date-based expiry. -/
theorem getStatusBadge_status_precedence
    (s pay pay' : String) (e e' now now' : Int) :
    ((s = "suspended" ∨ s = "frozen" ∨ s = "inactive") →
      getStatusBadge ⟨s, pay, e⟩ now = getStatusBadge ⟨s, pay', e'⟩ now') ∧
    ((s = "active" ∨ s = "") →
      getStatusBadge ⟨s, pay, e⟩ now = paymentExpiryBadge pay e now) ∧
    getStatusBadge ⟨"suspended", pay, e⟩ now = "Suspended" ∧
    getStatusBadge ⟨"frozen", pay, e⟩ now = "Frozen" ∧
    getStatusBadge ⟨"inactive", pay, e⟩ now = "Inactive" := by
  refine ⟨?_, ?_, rfl, ?_, ?_⟩
  · rintro (rfl | rfl | rfl) <;> rfl
  · rintro (rfl | rfl) <;> rfl
  · simp [getStatusBadge]
  · simp [getStatusBadge]

/-- Witness for C9 at concrete inputs: a suspended member shows
"Suspended" whatever the payment fields say, and an active member's
badge is the payment/expiry projection. -/
theorem getStatusBadge_status_precedence_witness :
    getStatusBadge ⟨"suspended", "paid", 100⟩ 0 =
      getStatusBadge ⟨"suspended", "pending", -50⟩ 99 ∧
    getStatusBadge ⟨"active", "paid", 100⟩ 0 = paymentExpiryBadge "paid" 100 0 := by
  have h := getStatusBadge_status_precedence "suspended" "paid" "pending" 100 (-50) 0 99
  have h2 := getStatusBadge_status_precedence "active" "paid" "paid" 100 100 0 0
  exact ⟨h.1 (Or.inl rfl), h2.2.1 (Or.inl rfl)⟩

/-- C10: a start date entered through the manager must lie between two
years before today and today inclusive, a new member's join date is
capped at today, and a date strictly after today is rejected by both
inputs — a future join or start date can never be entered. -/
theorem date_inputs_never_future (today d : CalDate) :
    (startDateInputOk today d = true →
      dateLeb (getMinDate today) d = true ∧ dateLeb d today = true) ∧
    (joinDateInputOk today d = true → dateLeb d today = true) ∧
    (dateLeb d today = false →
      startDateInputOk today d = false ∧ joinDateInputOk today d = false) := by
  refine ⟨?_, ?_, ?_⟩
  · intro h
    simpa [startDateInputOk, getTodayDate, Bool.and_eq_true] using h
  · intro h
    simpa [joinDateInputOk, getTodayDate] using h
  · intro h
    constructor
    · simp [startDateInputOk, getTodayDate, h]
    · simpa [joinDateInputOk, getTodayDate] using h

/-- Witness for C10 at concrete dates: 2026-10-12 as "today",
accepting today itself as a start date and rejecting tomorrow for both
inputs. -/
theorem date_inputs_never_future_witness :
    (dateLeb (getMinDate ⟨2026, 10, 12⟩) ⟨2026, 10, 12⟩ = true ∧
      dateLeb ⟨2026, 10, 12⟩ ⟨2026, 10, 12⟩ = true) ∧
    (startDateInputOk ⟨2026, 10, 12⟩ ⟨2026, 10, 13⟩ = false ∧
      joinDateInputOk ⟨2026, 10, 12⟩ ⟨2026, 10, 13⟩ = false) := by
  have h1 := date_inputs_never_future ⟨2026, 10, 12⟩ ⟨2026, 10, 12⟩
  have h2 := date_inputs_never_future ⟨2026, 10, 12⟩ ⟨2026, 10, 13⟩
  exact ⟨h1.1 (by decide), h2.2.2 (by decide)⟩

end Gym
